import Mathlib

/-!
Verification development for the bike-rental storefront.

Shallow embedding conventions:
* Database rows are Lean structures mirroring the TypeScript interfaces.
* JS numbers (rates, amounts) are modelled as `Rat`; timestamps handled by
  `Date` arithmetic are modelled as `Rat` milliseconds since the epoch
  (`setHours(+d)` becomes `+ d * msPerHour`, `setDate(+d)` becomes
  `+ d * msPerDay`; DST shifts of the local calendar are not modelled).
* Each event handler becomes a pure function from its inputs (component
  state, loaded records, and a `Bool` oracle telling whether the remote
  create/update call fails) to a result record listing its effects:
  the records it inserted, the toast it raised, where it navigated, and
  what it logged.  String parsing done by `new Date(...)` is abstracted
  by passing the parsed timestamp alongside the raw strings.
-/

/-- Mirror of the `Bike` interface (BookingPage.tsx / BrowseBikes). -/
structure Bike where
  id : String
  name : String
  type : String
  description : String
  hourlyRate : Rat
  dailyRate : Rat
  imageUrl : String
  isAvailable : Int
deriving DecidableEq, Repr

/-- Mirror of the authenticated user object used by the pages. -/
structure User where
  id : String
  email : String
  displayName : Option String
deriving DecidableEq, Repr

/-- Mirror of a row of the `admin_users` collection (AdminSetup.tsx). -/
structure AdminUser where
  user_id : String
  role : String
deriving DecidableEq, Repr

/-- A toast notification as raised by `useToast`; `variant` is `some
"destructive"` exactly when the source passes `variant: "destructive"`. -/
structure Toast where
  title : String
  description : String
  variant : Option String
deriving DecidableEq, Repr

/-- Effects of one admin-setup handler run: the `admin_users` rows it
inserted, the toast it raised and the route it navigated to. -/
structure AdminActionResult where
  inserted : List AdminUser
  toast : Option Toast
  navigatedTo : Option String
deriving DecidableEq, Repr

/-- AdminSetup.tsx line 30: the hardcoded setup code. -/
def ADMIN_SETUP_CODE : String := "BIKERIDE2024"

/-- Embedding of `handleSetupAdmin` (AdminSetup.tsx lines 47-84).
`createFails` tells whether the `admin_users.create` call throws. -/
def handleSetupAdmin (adminCode : String) (user : User) (createFails : Bool) :
    AdminActionResult :=
  if adminCode ≠ ADMIN_SETUP_CODE then
    { inserted := []
      toast := some ⟨"Invalid Code", "Please enter the correct admin setup code.",
        some "destructive"⟩
      navigatedTo := none }
  else if createFails then
    { inserted := []
      toast := some ⟨"Setup Failed", "Failed to set up admin access. Please try again.",
        some "destructive"⟩
      navigatedTo := none }
  else
    { inserted := [⟨user.id, "admin"⟩]
      toast := some ⟨"Admin Access Granted!", "You now have admin privileges.", none⟩
      navigatedTo := some "/admin" }

/-- Embedding of `handleBecomeAdmin` (AdminSetup.tsx lines 86-125).
`admin_users` is the current content of the `admin_users` collection;
the function takes no setup code at all, exactly like the source. -/
def handleBecomeAdmin (user : User) (admin_users : List AdminUser)
    (createFails : Bool) : AdminActionResult :=
  let existingAdmin := admin_users.filter (fun r => r.user_id == user.id)
  if existingAdmin.length > 0 then
    { inserted := []
      toast := some ⟨"Already Admin", "You already have admin privileges.", none⟩
      navigatedTo := some "/admin" }
  else if createFails then
    { inserted := []
      toast := some ⟨"Access Denied", "Unable to grant admin access. Contact existing admin.",
        some "destructive"⟩
      navigatedTo := none }
  else
    { inserted := [⟨user.id, "admin"⟩]
      toast := some ⟨"Admin Access Granted!", "You now have admin privileges.", none⟩
      navigatedTo := some "/admin" }

/-- C1: the first-admin setup form inserts an `admin_users` record for the
current user exactly when the entered code is string-equal to the constant
`BIKERIDE2024` (and the create call succeeds); for every other entered
code nothing is inserted, no navigation occurs, and the invalid-code
destructive toast is surfaced instead. -/
theorem admin_setup_code_gate (adminCode : String) (user : User) (createFails : Bool) :
    (adminCode ≠ ADMIN_SETUP_CODE →
      (handleSetupAdmin adminCode user createFails).inserted = [] ∧
      (handleSetupAdmin adminCode user createFails).navigatedTo = none ∧
      (handleSetupAdmin adminCode user createFails).toast =
        some ⟨"Invalid Code", "Please enter the correct admin setup code.",
          some "destructive"⟩) ∧
    (adminCode = ADMIN_SETUP_CODE → createFails = false →
      (handleSetupAdmin adminCode user createFails).inserted = [⟨user.id, "admin"⟩] ∧
      (handleSetupAdmin adminCode user createFails).navigatedTo = some "/admin") := by
  constructor
  · intro hne
    simp [handleSetupAdmin, hne]
  · intro heq hf
    subst heq hf
    simp [handleSetupAdmin]

/-- Witness for C1 at the concrete codes "WRONG" and "BIKERIDE2024". -/
theorem admin_setup_code_gate_witness :
    ((handleSetupAdmin "WRONG" ⟨"u1", "u@e.com", none⟩ false).inserted = [] ∧
     (handleSetupAdmin "WRONG" ⟨"u1", "u@e.com", none⟩ false).navigatedTo = none ∧
     (handleSetupAdmin "WRONG" ⟨"u1", "u@e.com", none⟩ false).toast =
       some ⟨"Invalid Code", "Please enter the correct admin setup code.",
         some "destructive"⟩) ∧
    (handleSetupAdmin "BIKERIDE2024" ⟨"u1", "u@e.com", none⟩ false).inserted =
      [⟨"u1", "admin"⟩] :=
  ⟨(admin_setup_code_gate "WRONG" ⟨"u1", "u@e.com", none⟩ false).1 (by decide),
   ((admin_setup_code_gate "BIKERIDE2024" ⟨"u1", "u@e.com", none⟩ false).2
      rfl rfl).1⟩

/-- C9: once admins exist, the Request Admin Access action inserts an
`admin_users` record with role `admin` for the current signed-in user
without checking any setup code (the handler takes none): it only
short-circuits when the user already has an admin record, so any signed-in
user can self-elevate to admin. -/
theorem become_admin_self_elevation (user : User) (admin_users : List AdminUser) :
    ((∀ r ∈ admin_users, r.user_id ≠ user.id) →
      (handleBecomeAdmin user admin_users false).inserted = [⟨user.id, "admin"⟩] ∧
      (handleBecomeAdmin user admin_users false).navigatedTo = some "/admin") ∧
    ((∃ r ∈ admin_users, r.user_id = user.id) →
      (handleBecomeAdmin user admin_users false).inserted = []) := by
  constructor
  · intro hnone
    have hfil : admin_users.filter (fun r => r.user_id == user.id) = [] := by
      rw [List.filter_eq_nil_iff]
      intro r hr
      simpa using hnone r hr
    simp [handleBecomeAdmin, hfil]
  · rintro ⟨r, hr, hid⟩
    have hmem : r ∈ admin_users.filter (fun r => r.user_id == user.id) := by
      rw [List.mem_filter]
      exact ⟨hr, by simpa using hid⟩
    have hlen : 0 < (admin_users.filter (fun r => r.user_id == user.id)).length :=
      List.length_pos.mpr (by intro h; rw [h] at hmem; exact absurd hmem (by simp))
    simp [handleBecomeAdmin, hlen]

/-- Witness for C9: a user not in a nonempty admin list gets inserted, a
user already in the list does not. -/
theorem become_admin_self_elevation_witness :
    ((handleBecomeAdmin ⟨"u2", "b@e.com", none⟩ [⟨"u1", "admin"⟩] false).inserted =
       [⟨"u2", "admin"⟩] ∧
     (handleBecomeAdmin ⟨"u2", "b@e.com", none⟩ [⟨"u1", "admin"⟩] false).navigatedTo =
       some "/admin") ∧
    (handleBecomeAdmin ⟨"u1", "b@e.com", none⟩ [⟨"u1", "admin"⟩] false).inserted = [] :=
  ⟨(become_admin_self_elevation ⟨"u2", "b@e.com", none⟩ [⟨"u1", "admin"⟩]).1
     (by decide),
   (become_admin_self_elevation ⟨"u1", "b@e.com", none⟩ [⟨"u1", "admin"⟩]).2
     ⟨⟨"u1", "admin"⟩, by decide, rfl⟩⟩

/-! BookingPage.tsx: booking submission. -/

/-- The `'instant' | 'pre_reservation'` union type of the booking form. -/
inductive BookingType
  | instant
  | pre_reservation
deriving DecidableEq, Repr

/-- The `'hours' | 'days'` union type of the duration selector. -/
inductive DurationType
  | hours
  | days
deriving DecidableEq, Repr

/-- The booking-form component state (BookingPage.tsx lines 35-43).
`startDate` and `startTime` are the raw input strings. -/
structure FormState where
  bookingType : BookingType
  startDate : String
  startTime : String
  duration : Nat
  durationType : DurationType
  customerName : String
  customerEmail : String
  customerPhone : String
  notes : String
deriving DecidableEq, Repr

/-- The record passed to `bookings.create` (BookingPage.tsx lines 139-152);
`startDate` / `endDate` are the timestamps whose ISO strings are written. -/
structure BookingRecord where
  id : String
  userId : String
  bikeId : String
  bookingType : BookingType
  startDate : Rat
  endDate : Rat
  totalAmount : Rat
  status : String
  customerName : String
  customerEmail : String
  customerPhone : String
  notes : String
deriving DecidableEq, Repr

/-- Milliseconds in one hour, the step of `setHours(getHours() + duration)`. -/
def msPerHour : Rat := 3600000

/-- Milliseconds in one day, the step of `setDate(getDate() + duration)`. -/
def msPerDay : Rat := 86400000

/-- Embedding of the instant-booking default effect (BookingPage.tsx lines
93-99): when the booking type is `instant`, the start date and time inputs
are overwritten with the current date and time strings. -/
def instantStartDefault (nowDate nowTime : String) (st : FormState) : FormState :=
  if st.bookingType = BookingType.instant then
    { st with startDate := nowDate, startTime := nowTime }
  else st

/-- Embedding of `calculateTotal` (BookingPage.tsx lines 101-106). -/
def calculateTotal (bike : Option Bike) (duration : Nat)
    (durationType : DurationType) : Rat :=
  match bike with
  | none => 0
  | some bike =>
      let rate := if durationType = DurationType.hours then bike.hourlyRate
        else bike.dailyRate
      rate * duration

/-- Embedding of `calculateEndDateTime` (BookingPage.tsx lines 108-121):
`null` when either input string is empty, otherwise the start timestamp
plus `duration` hours or days.  `start` is the parse of
`startDate + "T" + startTime`. -/
def calculateEndDateTime (startDate startTime : String) (start : Rat)
    (duration : Nat) (durationType : DurationType) : Option Rat :=
  if startDate = "" ∨ startTime = "" then none
  else if durationType = DurationType.hours then
    some (start + duration * msPerHour)
  else
    some (start + duration * msPerDay)

/-- Effects of one `handleSubmit` run: the bookings successfully created,
how many create calls were attempted, the toast, the navigation target,
and the console errors logged. -/
structure SubmitResult where
  createdBookings : List BookingRecord
  createAttempts : Nat
  toast : Option Toast
  navigatedTo : Option String
  logged : List String
deriving DecidableEq, Repr

/-- The destructive toast of the catch branch (BookingPage.tsx lines 164-168). -/
def bookingFailedToast : Toast :=
  ⟨"Booking failed", "There was an error processing your booking. Please try again.",
    some "destructive"⟩

/-- Embedding of `handleSubmit` (BookingPage.tsx lines 123-172).
`startParsed` is the parse of the start date/time strings, `bookingId`
the generated id, and `createFails` tells whether `bookings.create`
throws.  A `none` end datetime throws before the create call; the catch
branch logs, raises the destructive toast and does not navigate. -/
def handleSubmit (st : FormState) (bike : Option Bike) (user : Option User)
    (bookingId : String) (startParsed : Rat) (createFails : Bool) : SubmitResult :=
  match bike, user with
  | some bike, some user =>
      match calculateEndDateTime st.startDate st.startTime startParsed
          st.duration st.durationType with
      | none =>
          { createdBookings := []
            createAttempts := 0
            toast := some bookingFailedToast
            navigatedTo := none
            logged := ["Error creating booking:"] }
      | some endDateTime =>
          let record : BookingRecord :=
            { id := bookingId
              userId := user.id
              bikeId := bike.id
              bookingType := st.bookingType
              startDate := startParsed
              endDate := endDateTime
              totalAmount := calculateTotal (some bike) st.duration st.durationType
              status := if st.bookingType = BookingType.instant then "approved"
                else "pending"
              customerName := st.customerName
              customerEmail := st.customerEmail
              customerPhone := st.customerPhone
              notes := st.notes }
          if createFails then
            { createdBookings := []
              createAttempts := 1
              toast := some bookingFailedToast
              navigatedTo := none
              logged := ["Error creating booking:"] }
          else
            { createdBookings := [record]
              createAttempts := 1
              toast := some ⟨"Booking submitted!",
                if st.bookingType = BookingType.instant then
                  "Your bike is ready for pickup!"
                else "Your booking request has been submitted for approval.", none⟩
              navigatedTo := some "/my-rentals"
              logged := [] }
  | _, _ =>
      { createdBookings := []
        createAttempts := 0
        toast := none
        navigatedTo := none
        logged := [] }

/-- C2: every created booking record has status `approved` when the
booking type is `instant` and `pending` when it is `pre_reservation`;
and for an instant booking the default effect sets the start date and
time inputs to the current date and time. -/
theorem booking_status_by_type (st : FormState) (bike : Bike) (user : User)
    (bookingId : String) (startParsed : Rat) (createFails : Bool)
    (rec : BookingRecord)
    (hrec : rec ∈ (handleSubmit st (some bike) (some user) bookingId startParsed
      createFails).createdBookings) :
    (st.bookingType = BookingType.instant → rec.status = "approved") ∧
    (st.bookingType = BookingType.pre_reservation → rec.status = "pending") ∧
    (∀ nowDate nowTime, st.bookingType = BookingType.instant →
      (instantStartDefault nowDate nowTime st).startDate = nowDate ∧
      (instantStartDefault nowDate nowTime st).startTime = nowTime) := by
  unfold handleSubmit at hrec
  rcases hend : calculateEndDateTime st.startDate st.startTime startParsed
      st.duration st.durationType with _ | endDT
  · rw [hend] at hrec; simp at hrec
  · rw [hend] at hrec
    cases createFails
    · simp at hrec
      refine ⟨fun hbt => ?_, fun hbt => ?_, fun nowDate nowTime hbt => ?_⟩
      · simp [hrec, hbt]
      · simp [hrec, hbt]
      · simp [instantStartDefault, hbt]
    · simp at hrec

/-- Witness for C2: a concrete instant submission yields an approved
record, and the default effect fills in the current date and time. -/
theorem booking_status_by_type_witness :
    (⟨"b1", "u1", "bk1", BookingType.instant, 0, 7200000, 10, "approved",
       "A", "a@e.com", "1", ""⟩ : BookingRecord) ∈
      (handleSubmit
        ⟨BookingType.instant, "2024-01-01", "10:00", 2, DurationType.hours,
          "A", "a@e.com", "1", ""⟩
        (some ⟨"bk1", "City Cruiser", "City", "d", 5, 20, "", 1⟩)
        (some ⟨"u1", "a@e.com", none⟩) "b1" 0 false).createdBookings ∧
    (⟨"b1", "u1", "bk1", BookingType.instant, 0, 7200000, 10, "approved",
       "A", "a@e.com", "1", ""⟩ : BookingRecord).status = "approved" ∧
    (instantStartDefault "2024-01-01" "10:00"
      ⟨BookingType.instant, "2024-01-01", "10:00", 2, DurationType.hours,
        "A", "a@e.com", "1", ""⟩).startDate = "2024-01-01" := by
  have hmem : (⟨"b1", "u1", "bk1", BookingType.instant, 0, 7200000, 10, "approved",
       "A", "a@e.com", "1", ""⟩ : BookingRecord) ∈
      (handleSubmit
        ⟨BookingType.instant, "2024-01-01", "10:00", 2, DurationType.hours,
          "A", "a@e.com", "1", ""⟩
        (some ⟨"bk1", "City Cruiser", "City", "d", 5, 20, "", 1⟩)
        (some ⟨"u1", "a@e.com", none⟩) "b1" 0 false).createdBookings := by
    simp [handleSubmit, calculateEndDateTime, calculateTotal, msPerHour]
    norm_num
  exact ⟨hmem, (booking_status_by_type _ _ _ _ _ _ _ hmem).1 rfl,
    ((booking_status_by_type _ _ _ _ _ _ _ hmem).2.2 "2024-01-01" "10:00" rfl).1⟩

/-- C3: the booking total is rate × duration, with the hourly rate for a
duration in hours and the daily rate for a duration in days; the created
booking record's `totalAmount` is exactly `calculateTotal` of the loaded
bike (the summary box displays `calculateTotal().toFixed(2)` of the same
value). -/
theorem total_is_rate_times_duration (bike : Bike) (duration : Nat)
    (durationType : DurationType) (st : FormState) (user : User)
    (bookingId : String) (startParsed : Rat) (createFails : Bool)
    (rec : BookingRecord)
    (hrec : rec ∈ (handleSubmit st (some bike) (some user) bookingId startParsed
      createFails).createdBookings) :
    calculateTotal (some bike) duration durationType =
      (if durationType = DurationType.hours then bike.hourlyRate
        else bike.dailyRate) * duration ∧
    rec.totalAmount = calculateTotal (some bike) st.duration st.durationType := by
  refine ⟨rfl, ?_⟩
  unfold handleSubmit at hrec
  rcases hend : calculateEndDateTime st.startDate st.startTime startParsed
      st.duration st.durationType with _ | endDT
  · rw [hend] at hrec; simp at hrec
  · rw [hend] at hrec
    cases createFails
    · simp at hrec
      simp [hrec]
    · simp at hrec

/-- Witness for C3 at a bike with rates 5 and 20 and a 2-hour booking. -/
theorem total_is_rate_times_duration_witness :
    calculateTotal (some ⟨"bk1", "City Cruiser", "City", "d", 5, 20, "", 1⟩)
        2 DurationType.hours =
      (if DurationType.hours = DurationType.hours then (5 : Rat) else 20) * 2 ∧
    (⟨"b1", "u1", "bk1", BookingType.instant, 0, 7200000, 10, "approved",
       "A", "a@e.com", "1", ""⟩ : BookingRecord).totalAmount =
      calculateTotal (some ⟨"bk1", "City Cruiser", "City", "d", 5, 20, "", 1⟩)
        2 DurationType.hours := by
  have hmem : (⟨"b1", "u1", "bk1", BookingType.instant, 0, 7200000, 10, "approved",
       "A", "a@e.com", "1", ""⟩ : BookingRecord) ∈
      (handleSubmit
        ⟨BookingType.instant, "2024-01-01", "10:00", 2, DurationType.hours,
          "A", "a@e.com", "1", ""⟩
        (some ⟨"bk1", "City Cruiser", "City", "d", 5, 20, "", 1⟩)
        (some ⟨"u1", "a@e.com", none⟩) "b1" 0 false).createdBookings := by
    simp [handleSubmit, calculateEndDateTime, calculateTotal, msPerHour]
    norm_num
  exact total_is_rate_times_duration _ 2 DurationType.hours _ _ _ _ _ _ hmem

/-- C4 counterexample: for a bike with hourly rate 10 and a 2-hour booking
starting at timestamp 0, the created record's end time is 7200000 ms
(start plus 2 hours), which differs from start + duration × rate under
either unit reading (20, or 72000000 when scaled to milliseconds): the
rate does not enter the end-time computation. -/
theorem booking_end_time_counterexample :
    (handleSubmit
        ⟨BookingType.instant, "2024-01-01", "10:00", 2, DurationType.hours,
          "A", "a@e.com", "1", ""⟩
        (some ⟨"bk1", "City Cruiser", "City", "d", 10, 40, "", 1⟩)
        (some ⟨"u1", "a@e.com", none⟩) "b1" 0 false).createdBookings =
      [⟨"b1", "u1", "bk1", BookingType.instant, 0, 7200000, 20, "approved",
        "A", "a@e.com", "1", ""⟩] ∧
    ¬ ((7200000 : Rat) = 0 + 2 * 10) ∧
    ¬ ((7200000 : Rat) = (0 + 2 * 10) * msPerHour) := by
  refine ⟨?_, by norm_num, by norm_num [msPerHour]⟩
  simp [handleSubmit, calculateEndDateTime, calculateTotal, msPerHour]
  norm_num

/-- C4 amended: booking submission computes the end time as the start
time plus the duration itself, in hours or days according to the duration
type (the rate is not involved), and writes exactly one booking record
per successful submission, whose end date is that end time. -/
theorem booking_end_time_and_single_write (st : FormState) (bike : Bike)
    (user : User) (bookingId : String) (startParsed : Rat)
    (hd : st.startDate ≠ "") (ht : st.startTime ≠ "") :
    calculateEndDateTime st.startDate st.startTime startParsed st.duration
        st.durationType =
      some (startParsed + st.duration *
        (if st.durationType = DurationType.hours then msPerHour else msPerDay)) ∧
    (handleSubmit st (some bike) (some user) bookingId startParsed
        false).createdBookings.length = 1 ∧
    (handleSubmit st (some bike) (some user) bookingId startParsed
        false).createAttempts = 1 ∧
    ∀ rec ∈ (handleSubmit st (some bike) (some user) bookingId startParsed
        false).createdBookings,
      rec.endDate = startParsed + st.duration *
        (if st.durationType = DurationType.hours then msPerHour else msPerDay) := by
  have hend : calculateEndDateTime st.startDate st.startTime startParsed st.duration
      st.durationType =
      some (startParsed + st.duration *
        (if st.durationType = DurationType.hours then msPerHour else msPerDay)) := by
    cases hdt : st.durationType <;> simp [calculateEndDateTime, hd, ht, hdt]
  refine ⟨hend, ?_, ?_, ?_⟩ <;>
    simp [handleSubmit, hend]

/-- Witness for C4 amended at a concrete 2-hour submission. -/
theorem booking_end_time_and_single_write_witness :
    calculateEndDateTime "2024-01-01" "10:00" 0 2 DurationType.hours =
      some (0 + (2 : Nat) *
        (if DurationType.hours = DurationType.hours then msPerHour else msPerDay)) ∧
    (handleSubmit
        ⟨BookingType.instant, "2024-01-01", "10:00", 2, DurationType.hours,
          "A", "a@e.com", "1", ""⟩
        (some ⟨"bk1", "City Cruiser", "City", "d", 10, 40, "", 1⟩)
        (some ⟨"u1", "a@e.com", none⟩) "b1" 0 false).createdBookings.length = 1 := by
  have h := booking_end_time_and_single_write
    ⟨BookingType.instant, "2024-01-01", "10:00", 2, DurationType.hours,
      "A", "a@e.com", "1", ""⟩
    ⟨"bk1", "City Cruiser", "City", "d", 10, 40, "", 1⟩
    ⟨"u1", "a@e.com", none⟩ "b1" 0 (by decide) (by decide)
  exact ⟨h.1, h.2.1⟩

/-- C7: a data-access failure during booking submission is caught, logged
and surfaced as the single generic destructive toast; no booking record
results, no navigation to the rentals page occurs, and the create call is
attempted at most once (no retry). -/
theorem booking_failure_no_retry (st : FormState) (bike : Bike) (user : User)
    (bookingId : String) (startParsed : Rat) :
    (handleSubmit st (some bike) (some user) bookingId startParsed
        true).createdBookings = [] ∧
    (handleSubmit st (some bike) (some user) bookingId startParsed
        true).navigatedTo = none ∧
    (handleSubmit st (some bike) (some user) bookingId startParsed
        true).toast = some bookingFailedToast ∧
    bookingFailedToast.variant = some "destructive" ∧
    (handleSubmit st (some bike) (some user) bookingId startParsed
        true).logged ≠ [] ∧
    (handleSubmit st (some bike) (some user) bookingId startParsed
        true).createAttempts ≤ 1 := by
  unfold handleSubmit
  rcases calculateEndDateTime st.startDate st.startTime startParsed
      st.duration st.durationType with _ | endDT <;>
    simp [bookingFailedToast]

/-! BookingManagement.tsx: approve/reject and delivery/return updates. -/

/-- Mirror of the management `Booking` interface (BookingManagement.tsx
lines 14-34); optional interface fields are `Option String`, and
`updatedAt` is carried because the update handlers write it. -/
structure BookingRow where
  id : String
  userId : String
  bikeId : String
  bookingType : String
  startDate : String
  endDate : String
  totalAmount : Rat
  status : String
  customerName : String
  customerEmail : String
  customerPhone : String
  notes : String
  createdAt : String
  bikeNumber : Option String
  deliveryStatus : Option String
  returnStatus : Option String
  deliveredAt : Option String
  returnedAt : Option String
  assignedByAdmin : Option String
  updatedAt : Option String
deriving DecidableEq, Repr

/-- A partial update object passed to `bookings.update`: `none` means the
field is absent from the update, `some v` that it is written with `v`. -/
structure BookingUpdate where
  status : Option String := none
  updatedAt : Option String := none
  deliveryStatus : Option String := none
  deliveredAt : Option String := none
  bikeNumber : Option String := none
  returnStatus : Option String := none
  returnedAt : Option String := none
deriving DecidableEq, Repr

/-- Overwrite-if-present semantics of one optional column under a partial
update. -/
def setField (new old : Option String) : Option String :=
  match new with
  | some v => some v
  | none => old

/-- `blink.db.bookings.update`: fields present in the update object
overwrite the row, all other columns keep their value. -/
def applyUpdate (row : BookingRow) (u : BookingUpdate) : BookingRow :=
  { row with
    status := u.status.getD row.status
    updatedAt := setField u.updatedAt row.updatedAt
    deliveryStatus := setField u.deliveryStatus row.deliveryStatus
    deliveredAt := setField u.deliveredAt row.deliveredAt
    bikeNumber := setField u.bikeNumber row.bikeNumber
    returnStatus := setField u.returnStatus row.returnStatus
    returnedAt := setField u.returnedAt row.returnedAt }

/-- The `'approve' | 'reject'` union type of `handleBookingAction`. -/
inductive BookingAction
  | approve
  | reject
deriving DecidableEq, Repr

/-- Embedding of `handleBookingAction` (BookingManagement.tsx lines
126-162): writes the new approval status and `updatedAt`. -/
def handleBookingAction (row : BookingRow) (action : BookingAction)
    (now : String) : BookingRow :=
  applyUpdate row
    { status := some (if action = BookingAction.approve then "approved" else "rejected")
      updatedAt := some now }

/-- The `'delivery' | 'return'` selector of `handleStatusUpdate`. -/
inductive UpdateType
  | delivery
  | return_
deriving DecidableEq, Repr

/-- The update object built by `handleStatusUpdate` (BookingManagement.tsx
lines 170-188): a delivery update writes the delivery status, stamps
`deliveredAt` when the chosen value is `delivered`, and writes the bike
number when one was entered; a return update writes the return status and,
when the chosen value is `returned`, stamps `returnedAt` and sets the
booking status to `completed`. -/
def statusUpdateData (t : UpdateType)
    (deliveryStatusInput returnStatusInput bikeNumberInput now : String) :
    BookingUpdate :=
  match t with
  | UpdateType.delivery =>
      { updatedAt := some now
        deliveryStatus := some deliveryStatusInput
        deliveredAt := if deliveryStatusInput = "delivered" then some now else none
        bikeNumber := if bikeNumberInput ≠ "" then some bikeNumberInput else none }
  | UpdateType.return_ =>
      { updatedAt := some now
        returnStatus := some returnStatusInput
        returnedAt := if returnStatusInput = "returned" then some now else none
        status := if returnStatusInput = "returned" then some "completed" else none }

/-- Embedding of `handleStatusUpdate` (BookingManagement.tsx lines
164-219) applied to the selected booking. -/
def handleStatusUpdate (row : BookingRow) (t : UpdateType)
    (deliveryStatusInput returnStatusInput bikeNumberInput now : String) :
    BookingRow :=
  applyUpdate row
    (statusUpdateData t deliveryStatusInput returnStatusInput bikeNumberInput now)

/-- C5 counterexample: a return update with chosen value `returned` on an
approved booking rewrites the booking's approval status to `completed`,
so the update does not leave the approval status unchanged. -/
theorem status_update_cross_field_counterexample :
    (handleStatusUpdate
        ⟨"b1", "u1", "bk1", "instant", "s", "e", 10, "approved", "A",
          "a@e.com", "1", "", "c", none, none, none, none, none, none, none⟩
        UpdateType.return_ "pending" "returned" "" "T1").status = "completed" ∧
    (⟨"b1", "u1", "bk1", "instant", "s", "e", 10, "approved", "A",
        "a@e.com", "1", "", "c", none, none, none, none, none, none,
        none⟩ : BookingRow).status = "approved" ∧
    ("completed" : String) ≠ "approved" := by
  refine ⟨?_, rfl, by decide⟩
  simp [handleStatusUpdate, statusUpdateData, applyUpdate, setField]

/-- C5 amended: approval, delivery and return status updates are
independent field writes with no cross-field consistency enforcement,
with two exceptions forced by the code: a delivery update also writes the
bike number when one was entered, and a return update with chosen value
`returned` also stamps `returnedAt` and overwrites the booking's approval
status with `completed`.  In every case all remaining fields are left
unchanged: approve/reject writes only `status` and `updatedAt`; a
delivery update writes only `deliveryStatus`, `updatedAt`, `deliveredAt`
(when the value is `delivered`) and `bikeNumber` (when entered); a return
update writes only `returnStatus`, `updatedAt` and, for `returned`,
`returnedAt` and `status`. -/
theorem status_updates_frame (row : BookingRow) (action : BookingAction)
    (dIn rIn bIn now : String) :
    handleBookingAction row action now =
      { row with
        status := if action = BookingAction.approve then "approved" else "rejected"
        updatedAt := some now } ∧
    handleStatusUpdate row UpdateType.delivery dIn rIn bIn now =
      { row with
        deliveryStatus := some dIn
        deliveredAt := if dIn = "delivered" then some now else row.deliveredAt
        bikeNumber := if bIn ≠ "" then some bIn else row.bikeNumber
        updatedAt := some now } ∧
    handleStatusUpdate row UpdateType.return_ dIn rIn bIn now =
      { row with
        returnStatus := some rIn
        returnedAt := if rIn = "returned" then some now else row.returnedAt
        status := if rIn = "returned" then "completed" else row.status
        updatedAt := some now } := by
  refine ⟨?_, ?_, ?_⟩
  · cases action <;> simp [handleBookingAction, applyUpdate, setField]
  · by_cases hdel : dIn = "delivered" <;> by_cases hbn : bIn = "" <;>
      simp [handleStatusUpdate, statusUpdateData, applyUpdate, setField, hdel, hbn]
  · by_cases hret : rIn = "returned" <;>
      simp [handleStatusUpdate, statusUpdateData, applyUpdate, setField, hret]

/-! BrowseBikes (catalog listing/filtering) and the booking lists. -/

/-- Bool test that `sub` is a prefix of the character list. -/
def charsPrefix : List Char → List Char → Bool
  | [], _ => true
  | _ :: _, [] => false
  | a :: as, b :: bs => a = b && charsPrefix as bs

/-- Bool test that `sub` occurs contiguously in the character list. -/
def charsIn (sub : List Char) : List Char → Bool
  | [] => charsPrefix sub []
  | c :: rest => charsPrefix sub (c :: rest) || charsIn sub rest

/-- Model of JavaScript `String.prototype.includes`: contiguous substring
test. -/
def strIncludes (s sub : String) : Bool := charsIn sub.data s.data

/-- Model of JavaScript `String.prototype.toLowerCase`: lowercase each
character. -/
def toLowerCase (s : String) : String := ⟨s.data.map Char.toLower⟩

/-- The search-term stage of the catalog filter (BrowseBikes, lines
272-279 of the AdminSetup.tsx bundle): when the term is nonempty, keep
the bikes whose name, type or description contains the term,
case-insensitively. -/
def searchFilter (searchTerm : String) (bikes : List Bike) : List Bike :=
  if searchTerm ≠ "" then
    bikes.filter (fun bike =>
      strIncludes (toLowerCase bike.name) (toLowerCase searchTerm) ||
      strIncludes (toLowerCase bike.type) (toLowerCase searchTerm) ||
      strIncludes (toLowerCase bike.description) (toLowerCase searchTerm))
  else bikes

/-- The type stage of the catalog filter (lines 281-284): keep bikes of
the selected type unless `all` is selected. -/
def typeFilter (selectedType : String) (bikes : List Bike) : List Bike :=
  if selectedType ≠ "all" then
    bikes.filter (fun bike => toLowerCase bike.type == toLowerCase selectedType)
  else bikes

/-- Order induced by the sort comparator (lines 287-298): hourly rate
for the price sorts, else the type or name string order. -/
def sortLe (sortBy : String) (a b : Bike) : Bool :=
  if sortBy = "price-low" then a.hourlyRate ≤ b.hourlyRate
  else if sortBy = "price-high" then b.hourlyRate ≤ a.hourlyRate
  else if sortBy = "type" then a.type ≤ b.type
  else a.name ≤ b.name

/-- The `filteredBikes` state after the filtering effect (lines 269-301):
search filter, then type filter, then sort. -/
def filteredBikes (bikes : List Bike) (searchTerm selectedType sortBy : String) :
    List Bike :=
  (typeFilter selectedType (searchFilter searchTerm bikes)).mergeSort
    (sortLe sortBy)

/-- C6 counterexample: for the nonempty search term `mountain`, a bike
named `Roadster X` whose name fails the case-insensitive substring match
still appears in the filtered list, because its type `Mountain` matches:
the filter does not exclude every bike whose name fails the match. -/
theorem search_filter_name_counterexample :
    (⟨"bk1", "Roadster X", "Mountain", "solid frame", 5, 20, "", 1⟩ : Bike) ∈
      filteredBikes [⟨"bk1", "Roadster X", "Mountain", "solid frame", 5, 20, "", 1⟩]
        "mountain" "all" "name" ∧
    strIncludes (toLowerCase "Roadster X") (toLowerCase "mountain") = false := by
  refine ⟨?_, by decide⟩
  rw [filteredBikes, List.mem_mergeSort]
  decide

/-- C6 amended: for every nonempty search term, the catalog filter
excludes every bike for which all three of name, type and description
fail the case-insensitive substring match against the term; a bike whose
name alone fails can still appear when its type or description matches. -/
theorem search_filter_excludes_all_misses (bikes : List Bike)
    (searchTerm selectedType sortBy : String) (bike : Bike)
    (hterm : searchTerm ≠ "")
    (hname : strIncludes (toLowerCase bike.name) (toLowerCase searchTerm) = false)
    (htype : strIncludes (toLowerCase bike.type) (toLowerCase searchTerm) = false)
    (hdesc : strIncludes (toLowerCase bike.description)
      (toLowerCase searchTerm) = false) :
    bike ∉ filteredBikes bikes searchTerm selectedType sortBy := by
  intro hmem
  rw [filteredBikes, List.mem_mergeSort] at hmem
  have h1 : bike ∈ searchFilter searchTerm bikes := by
    unfold typeFilter at hmem
    split at hmem
    · exact List.mem_of_mem_filter hmem
    · exact hmem
  unfold searchFilter at h1
  rw [if_pos hterm] at h1
  have h2 := (List.mem_filter.mp h1).2
  simp [hname, htype, hdesc] at h2

/-- Witness for C6 amended: a bike matching the term in no field is
absent from the concrete filtered list. -/
theorem search_filter_excludes_all_misses_witness :
    (⟨"bk1", "City Cruiser", "City", "comfy", 5, 20, "", 1⟩ : Bike) ∉
      filteredBikes [⟨"bk1", "City Cruiser", "City", "comfy", 5, 20, "", 1⟩]
        "mountain" "all" "name" :=
  search_filter_excludes_all_misses _ "mountain" "all" "name" _
    (by decide) (by decide) (by decide) (by decide)

/-- The per-booking bike lookup of `loadBookings` (MyRentals and
BookingManagement.tsx lines 66-81): the rows with the booking's bike id,
then `bikes[0] || null`. -/
def lookupBike (bikes : List Bike) (bikeId : String) : Option Bike :=
  (bikes.filter (fun b => b.id == bikeId)).head?

/-- The booking-card title `booking.bike?.name || 'Unknown Bike'`
(BookingManagement.tsx line 612 and the MyRentals list). -/
def bookingTitle (bike : Option Bike) : String :=
  match bike with
  | some b => if b.name = "" then "Unknown Bike" else b.name
  | none => "Unknown Bike"

/-- C8: for every booking whose bike id matches no existing bike record,
the bike lookup yields `none` and the booking lists render the fallback
title `Unknown Bike`. -/
theorem unknown_bike_fallback (bikes : List Bike) (bikeId : String)
    (h : ∀ b ∈ bikes, b.id ≠ bikeId) :
    lookupBike bikes bikeId = none ∧
    bookingTitle (lookupBike bikes bikeId) = "Unknown Bike" := by
  have hfil : bikes.filter (fun b => b.id == bikeId) = [] := by
    rw [List.filter_eq_nil_iff]
    intro b hb
    simpa using h b hb
  constructor
  · simp [lookupBike, hfil]
  · simp [lookupBike, hfil, bookingTitle]

/-- Witness for C8: a catalog without the referenced id renders the
fallback title. -/
theorem unknown_bike_fallback_witness :
    lookupBike [⟨"bk1", "City Cruiser", "City", "comfy", 5, 20, "", 1⟩] "bk2" =
      none ∧
    bookingTitle (lookupBike
      [⟨"bk1", "City Cruiser", "City", "comfy", 5, 20, "", 1⟩] "bk2") =
      "Unknown Bike" :=
  unknown_bike_fallback _ "bk2" (by decide)

/-! AdminDashboard.tsx: revenue stats. -/

/-- The fields of a booking row used by `loadDashboardStats`;
`createdMonth` and `createdYear` abstract `new Date(createdAt).getMonth()`
and `.getFullYear()`. -/
structure RevenueBooking where
  status : String
  totalAmount : Rat
  createdMonth : Int
  createdYear : Int
deriving DecidableEq, Repr

/-- Embedding of the total-revenue computation (AdminDashboard.tsx lines
39-41): sum of `totalAmount` over approved or completed bookings. -/
def totalRevenue (bs : List RevenueBooking) : Rat :=
  (bs.filter (fun b => b.status == "approved" || b.status == "completed")).foldl
    (fun sum b => sum + b.totalAmount) 0

/-- Embedding of the monthly-revenue computation (AdminDashboard.tsx
lines 44-53): sum of `totalAmount` over approved or completed bookings
created in the current month and year. -/
def monthlyRevenue (bs : List RevenueBooking) (currentMonth currentYear : Int) :
    Rat :=
  (bs.filter (fun b => b.createdMonth == currentMonth &&
      b.createdYear == currentYear &&
      (b.status == "approved" || b.status == "completed"))).foldl
    (fun sum b => sum + b.totalAmount) 0

/-- Pulling the accumulator out of the revenue fold. -/
theorem foldl_add_totalAmount (l : List RevenueBooking) (a : Rat) :
    l.foldl (fun sum b => sum + b.totalAmount) a =
      a + l.foldl (fun sum b => sum + b.totalAmount) 0 := by
  induction l generalizing a with
  | nil => simp
  | cons c tl ih =>
      simp only [List.foldl_cons]
      rw [ih (a + c.totalAmount), ih (0 + c.totalAmount)]
      ring

/-- C10 counterexample: revenue is a plain sum of stored `totalAmount`
values, so with an approved booking of amount -1 created outside the
current month, the total revenue is -1 while the monthly revenue is 0:
the monthly figure exceeds the total.  (Negative amounts are storable:
the bike-form rate inputs carry no lower bound.) -/
theorem monthly_revenue_counterexample :
    ¬ (monthlyRevenue [⟨"approved", -1, 4, 2024⟩] 5 2024 ≤
        totalRevenue [⟨"approved", -1, 4, 2024⟩]) := by
  simp [monthlyRevenue, totalRevenue]

/-- C10 amended: when every stored `totalAmount` is nonnegative, the
dashboard's monthly revenue is at most its total revenue — both are sums
of `totalAmount` over bookings whose status is `approved` or `completed`,
and the monthly sum ranges over the subset of those bookings created in
the current month and year. -/
theorem monthly_revenue_le_total (bs : List RevenueBooking)
    (currentMonth currentYear : Int)
    (hpos : ∀ b ∈ bs, 0 ≤ b.totalAmount) :
    monthlyRevenue bs currentMonth currentYear ≤ totalRevenue bs := by
  induction bs with
  | nil => simp [monthlyRevenue, totalRevenue]
  | cons b tl ih =>
      have hb : 0 ≤ b.totalAmount := hpos b (List.mem_cons_self b tl)
      have ih2 := ih (fun x hx => hpos x (List.mem_cons_of_mem b hx))
      simp only [monthlyRevenue, totalRevenue] at ih2 ⊢
      rw [List.filter_cons, List.filter_cons]
      by_cases hm : (b.createdMonth == currentMonth &&
          b.createdYear == currentYear &&
          (b.status == "approved" || b.status == "completed")) = true
      · have hr : (b.status == "approved" || b.status == "completed") = true := by
          have hm' := hm
          simp only [Bool.and_eq_true] at hm'
          exact hm'.2
        rw [if_pos hm, if_pos hr, List.foldl_cons, List.foldl_cons,
          foldl_add_totalAmount _ (0 + b.totalAmount),
          foldl_add_totalAmount _ (0 + b.totalAmount)]
        linarith [ih2]
      · rw [if_neg hm]
        by_cases hr : (b.status == "approved" || b.status == "completed") = true
        · rw [if_pos hr, List.foldl_cons,
            foldl_add_totalAmount _ (0 + b.totalAmount)]
          linarith [ih2, hb]
        · rw [if_neg hr]
          exact ih2

/-- Witness for C10 amended at a two-booking list with nonnegative
amounts: monthly revenue 7 against total revenue 12. -/
theorem monthly_revenue_le_total_witness :
    monthlyRevenue [⟨"approved", 5, 4, 2024⟩, ⟨"approved", 7, 5, 2024⟩] 5 2024 ≤
      totalRevenue [⟨"approved", 5, 4, 2024⟩, ⟨"approved", 7, 5, 2024⟩] :=
  monthly_revenue_le_total _ 5 2024 (by decide)
